import Mathlib

/-!
Verification of the genefer20 process-lifecycle orchestrator (src/main.cpp).

The development shallowly embeds `application::run` and `main`:
pure helpers (`atoi`, the argument-parse loop) become Lean functions,
and the orchestrator's observable behaviour becomes an explicit event
trace (`Event`) produced by `run`/`mainRun` over an environment `Env`
describing the external collaborators (OpenCL platform, BOINC client,
compute engine).
-/

namespace Genefer20

/-- Model of `std::string::substr(pos)` on the character sequence (arguments are ASCII). -/
def substrFrom (s : String) (pos : Nat) : String := String.mk (s.toList.drop pos)

/-- Model of `std::string::substr(0, len)` on the character sequence. -/
def substrPref (s : String) (len : Nat) : String := String.mk (s.toList.take len)

/-- Model of `std::string::operator[]`: character at index `i`; the terminating
NUL (guaranteed at index `size()`) is modelled by the default `'\x00'`. -/
def charAt (s : String) (i : Nat) : Char := s.toList.getD i (Char.ofNat 0)

/-- C `isspace` on the default locale, as used by `std::atoi`. -/
def isSpaceC (c : Char) : Bool :=
  c == ' ' || c == '\t' || c == '\n' || c == Char.ofNat 11 || c == Char.ofNat 12 || c == '\r'

/-- Accumulate the value of the leading decimal-digit run, as `std::atoi` does
after sign handling; stops at the first non-digit (trailing garbage ignored). -/
def digitsVal : List Char → Nat → Nat
  | [], acc => acc
  | c :: cs, acc => if c.isDigit then digitsVal cs (10 * acc + (c.toNat - 48)) else acc

/-- Model of `std::atoi`: skip leading whitespace, optional sign, then the longest
digit prefix; yields 0 when no digits are present. -/
def atoi (s : String) : Int :=
  match s.toList.dropWhile isSpaceC with
  | '-' :: cs => -(digitsVal cs 0 : Int)
  | '+' :: cs => (digitsVal cs 0 : Int)
  | cs => (digitsVal cs 0 : Int)

/-- The `int → size_t` conversion applied when `d = std::atoi(dev.c_str())`
stores into a `size_t` variable (two's-complement wraparound modulo 2^64). -/
def toSizeT (i : Int) : Nat := (i % (2 : Int) ^ 64).toNat

/-- The locals of the parse loop in `application::run`
(`size_t d = 0; int n = 0; std::string filename; bool display = false;`). -/
structure Cfg where
  d : Nat
  n : Int
  filename : String
  display : Bool
deriving DecidableEq, Repr

/-- Initial values of the parse-loop locals. -/
def cfg0 : Cfg := { d := 0, n := 0, filename := "", display := false }

/-- The `-n` value conversion and check (`n = std::atoi(nval.c_str())`
followed by `if (n < 8) throw ...; if (n > 16) throw ...`). -/
def nCheck (v : String) : Except String Int :=
  if atoi v < 8 then Except.error "n < 8 is not supported"
  else if atoi v > 16 then Except.error "n > 16 is not supported"
  else Except.ok (atoi v)

/-- The device-number conversion and check shared by `-d` and `--device`
(`d = std::atoi(dev.c_str())` into a `size_t`, followed by
`if (d >= platform.getDeviceCount()) throw ...`). -/
def dCheck (dc : Nat) (v : String) : Except String Nat :=
  if toSizeT (atoi v) ≥ dc then Except.error "invalid device number"
  else Except.ok (toSizeT (atoi v))

instance {ε α : Type} [DecidableEq ε] [DecidableEq α] : DecidableEq (Except ε α) :=
  fun a b =>
    match a, b with
    | Except.ok x, Except.ok y =>
      if h : x = y then Decidable.isTrue (by rw [h]) else Decidable.isFalse (by simp [h])
    | Except.error x, Except.error y =>
      if h : x = y then Decidable.isTrue (by rw [h]) else Decidable.isFalse (by simp [h])
    | Except.ok _, Except.error _ => Decidable.isFalse (by simp)
    | Except.error _, Except.ok _ => Decidable.isFalse (by simp)

/-- Value selection for a flag taking a value
(`(arg == "-x") && (i + 1 < size) ? args[++i] : arg.substr(k)`): when the
flag stands alone and a next token exists, the value is that token and it
is consumed; otherwise the value is the remainder `inline` of the token. -/
def takeVal (alone : Bool) (inline : String) (rest : List String) : String × List String :=
  if alone then
    match rest with
    | v :: rest' => (v, rest')
    | [] => (inline, rest)
  else (inline, rest)

/-- One pass of the argument-parse loop of `application::run` (main.cpp
lines 184-212), with the remaining iteration bound as fuel. Unknown flags
fall through to the next iteration. -/
def parseGo (dc : Nat) : Nat → List String → Cfg → Except String Cfg
  | 0, _, cfg => Except.ok cfg
  | _ + 1, [], cfg => Except.ok cfg
  | fuel + 1, arg :: rest, cfg =>
    if substrPref arg 2 = "-n" then
      match takeVal (arg == "-n") (substrFrom arg 2) rest with
      | (v, rem) =>
        match nCheck v with
        | Except.error e => Except.error e
        | Except.ok n => parseGo dc fuel rem { cfg with n := n }
    else if substrPref arg 2 = "-f" then
      match takeVal (arg == "-f") (substrFrom arg 2) rest with
      | (v, rem) => parseGo dc fuel rem { cfg with filename := v }
    else if substrPref arg 2 = "-d" then
      match takeVal (arg == "-d") (substrFrom arg 2) rest with
      | (v, rem) =>
        match dCheck dc v with
        | Except.error e => Except.error e
        | Except.ok d => parseGo dc fuel rem { cfg with d := d }
    else if substrPref arg 8 = "--device" then
      match takeVal (arg == "--device") (substrFrom arg 8) rest with
      | (v, rem) =>
        match dCheck dc v with
        | Except.error e => Except.error e
        | Except.ok d => parseGo dc fuel rem { cfg with d := d }
    else if arg == "-p" then
      parseGo dc fuel rest { cfg with display := true }
    else
      parseGo dc fuel rest cfg

/-- The argument-parse loop of `application::run` (main.cpp lines 184-212),
entered with the loop bound `size = args.size()` as fuel (each iteration
consumes at least one token, so the fuel never runs out). -/
def parseLoop (dc : Nat) (args : List String) (cfg : Cfg) : Except String Cfg :=
  parseGo dc args.length args cfg

example : atoi "12abc" = 12 := by decide
example : atoi "" = 0 := by decide
example : atoi "-5" = -5 := by decide
example : atoi "  16" = 16 := by decide
example : parseLoop 1 ["-n", "12"] cfg0 = Except.ok { cfg0 with n := 12 } := by decide
example : ∀ dc : Nat, parseLoop dc ["-n", "12"] cfg0 = Except.ok { cfg0 with n := 12 } :=
  fun _ => rfl
example : parseLoop 1 ["-n", "20"] cfg0 = Except.error "n > 16 is not supported" := by decide
example : parseLoop 1 ["-n"] cfg0 = Except.error "n < 8 is not supported" := by decide
example : parseLoop 2 ["-d1"] cfg0 = Except.ok { cfg0 with d := 1 } := by decide
example : parseLoop 1 ["-d", "1"] cfg0 = Except.error "invalid device number" := by decide
example : parseLoop 1 ["-f", "-n20"] cfg0 = Except.ok { cfg0 with filename := "-n20" } := by
  decide
example : parseLoop 1 ["--device", "0", "-p"] cfg0 = Except.ok { cfg0 with display := true } := by
  decide
example : parseLoop 1 ["-boinc"] cfg0 = Except.ok cfg0 := by decide

/-- How the engine platform is chosen (main.cpp lines 219-222): either the
process-local `ocl::platform` or one rebuilt from the BOINC-assigned
`(platform_id, device_id)` pair. Ids are modelled as `Nat` (0 = null pointer). -/
inductive PlatformSel where
  | localPlat : PlatformSel
  | boincPlat : Nat → Nat → PlatformSel
deriving DecidableEq, Repr

/-- Observable actions of `application::run`/`main`, in program order:
output-channel writes, BOINC-client calls, device enumeration, and the
calls into the external compute engine. -/
inductive Event where
  | setBoincPio : Bool → Event
  | boincInit : Event
  | getOpenclIds : Event
  | print : String → Event
  | printErr : String → Event
  | printErrFatal : String → Event
  | displayDevices : Event
  | genSetBoinc : Bool → Event
  | engineCtor : PlatformSel → Nat → Event
  | genInit : Int → Bool → Event
  | checkFile : String → Bool → Event
  | bench : Event
  | release : Event
  | boincFinish : Nat → Event
deriving DecidableEq, Repr

/-- Responses of the external collaborators (OpenCL platform, BOINC client
runtime, compute engine) plus the `BOINC` build flag; `run` is deterministic
once these are fixed. Ids of 0 model null pointers. `engineError` is the
message of an exception thrown by the engine during `checkFile`/`bench`
(`none` = engine succeeds). -/
structure Env where
  boincCompiled : Bool
  boincInitRet : Int
  isStandalone : Bool
  openclErr : Int
  openclDeviceId : Nat
  openclPlatformId : Nat
  deviceCount : Nat
  engineError : Option String
deriving DecidableEq, Repr

/-- Banner text `application::header` (main.cpp lines 63-105) for a linux64/gcc build;
with `nl` set it appends the echoed command line. -/
def header (args : List String) (nl : Bool) : String :=
  let base := "genefer20 1.13.0 linux64 gcc-12.2.0\n"
    ++ "Copyright (c) 2020, Yves Gallot\n"
    ++ "genefer20 is free source code, under the MIT license.\n"
  if nl then
    base ++ "\nCommand line: \x27" ++ String.intercalate " " args ++ "\x27\n\n"
  else base

/-- Usage text `application::usage` (main.cpp lines 108-122); the `-boinc` line is
emitted only in a BOINC-enabled build. -/
def usage (boincBuild : Bool) : String :=
  "Usage: genefer20 [options]  options may be specified in any order\n"
  ++ "  -n <n>                  GFN exponent (b^\x7b2^n\x7d + 1) \n"
  ++ "  -f <filename>           input text file (one b per line)\n"
  ++ "  -d <n> or --device <n>  set device number=<n> (default 0)\n"
  ++ "  -p                      display results on the screen (default false)\n"
  ++ "  -v or -V                print the startup banner and immediately exit\n"
  ++ (if boincBuild then "  -boinc                  operate as a BOINC client app\n" else "")
  ++ "\n"

/-- The `bBoinc` flag (main.cpp lines 130-133): true when built with `BOINC` and some
argument equals `-boinc`. -/
def isBoincRun (env : Env) (args : List String) : Bool :=
  env.boincCompiled && args.any (fun a => a == "-boinc")

/-- The `-v`/`-V` scan of main.cpp lines 160-168: some argument starts with
`'-'` followed by `'v'` or `'V'`. -/
def bannerHit (args : List String) : Bool :=
  args.any (fun a => charAt a 0 == '-' && (charAt a 1 == 'v' || charAt a 1 == 'V'))

/-- The grid-mode initialization block of `application::run` (main.cpp lines
136-157): call `boinc_init`; on a nonzero status throw; in managed mode
(`!boinc_is_standalone()`) fetch the assigned `(platform, device)` ids and
throw when the call fails or either id is null. Returns the
`(boinc_platform_id, boinc_device_id)` pair (0s when untouched). -/
def gridInit (env : Env) (bBoinc : Bool) : List Event × Except String (Nat × Nat) :=
  if bBoinc then
    if env.boincInitRet ≠ 0 then
      ([Event.boincInit], Except.error ("boinc_init returned " ++ toString env.boincInitRet))
    else if !env.isStandalone then
      if env.openclErr ≠ 0 ∨ env.openclDeviceId = 0 ∨ env.openclPlatformId = 0 then
        ([Event.boincInit, Event.getOpenclIds],
          Except.error ("\nerror: boinc_get_opencl_ids() failed err = " ++ toString env.openclErr))
      else
        ([Event.boincInit, Event.getOpenclIds],
          Except.ok (env.openclPlatformId, env.openclDeviceId))
    else ([Event.boincInit], Except.ok (0, 0))
  else ([], Except.ok (0, 0))

/-- The body of `application::run` (main.cpp lines 125-240) as a trace transformer:
the returned list is the ordered sequence of observable events, and the
`Except` value is the control-flow outcome (`error` = a thrown
`std::runtime_error` propagating to `main`). -/
def run (env : Env) (args : List String) : List Event × Except String Unit :=
  let bBoinc := isBoincRun env args
  let g := gridInit env bBoinc
  let ev := Event.setBoincPio bBoinc :: g.1
  match g.2 with
  | Except.error e => (ev, Except.error e)
  | Except.ok ids =>
    if bannerHit args then
      (ev ++ Event.printErr (header args false) ::
        (if bBoinc then [Event.boincFinish 0] else []), Except.ok ())
    else
      let ev := ev ++ [Event.print (header args true)]
      let ev := if args.isEmpty then ev ++ [Event.print (usage env.boincCompiled)] else ev
      let ev := ev ++ [Event.displayDevices]
      if env.deviceCount = 0 then (ev, Except.error "No OpenCL device")
      else if args.isEmpty then (ev, Except.ok ())
      else
        match parseLoop env.deviceCount args cfg0 with
        | Except.error e => (ev, Except.error e)
        | Except.ok cfg =>
          if cfg.n = 0 then (ev, Except.ok ())
          else
            let isBP := bBoinc && decide (ids.2 ≠ 0) && decide (ids.1 ≠ 0)
            let ev := ev ++ [Event.genSetBoinc bBoinc,
              (if isBP then Event.engineCtor (PlatformSel.boincPlat ids.1 ids.2) 0
               else Event.engineCtor PlatformSel.localPlat cfg.d),
              Event.genInit cfg.n bBoinc]
            let disp := if cfg.filename = "" then Event.bench
              else Event.checkFile cfg.filename cfg.display
            match env.engineError with
            | some e => (ev ++ [disp], Except.error e)
            | none =>
              (ev ++ [disp, Event.release] ++
                (if bBoinc then [Event.boincFinish 0] else []), Except.ok ())

/-- The process entry `main` (main.cpp lines 243-258): run the application; a propagated
exception is reported as `"error: <message>."` via `pio::error(str, true)`
and the process exits with `EXIT_FAILURE` (1), otherwise `EXIT_SUCCESS` (0).
Modelled from the spec: the body of `pio::error` is outside src/; per the
spec (sections 4.4 and 7) a fatal report in grid mode also invokes the
client completion call (`boinc_finish`) with a failure status exactly once. -/
def mainRun (env : Env) (args : List String) : List Event × Nat :=
  match run env args with
  | (ev, Except.ok _) => (ev, 0)
  | (ev, Except.error e) =>
    (ev ++ Event.printErrFatal ("\nerror: " ++ e ++ ".\n") ::
      (if isBoincRun env args then [Event.boincFinish 1] else []), 1)

/-- Is the event a `boinc_finish` (client completion) call? -/
def isFinish : Event → Bool
  | Event.boincFinish _ => true
  | _ => false

/-- Number of client completion calls in a trace. -/
def countFinish (l : List Event) : Nat := (l.filter isFinish).length

/-- Is the event the engine construction? -/
def isEngineEvent : Event → Bool
  | Event.engineCtor _ _ => true
  | _ => false

/-- Was the compute engine constructed in the trace? -/
def hasEngine (l : List Event) : Bool := l.any isEngineEvent

/-- Number of device-enumeration calls in a trace. -/
def countDisplay (l : List Event) : Nat :=
  (l.filter (fun e => e == Event.displayDevices)).length

/-- The string an event writes to an output channel, if any. -/
def outputStr : Event → Option String
  | Event.print s => some s
  | Event.printErr s => some s
  | Event.printErrFatal s => some s
  | _ => none

/-- The strings written to the output channels (result and diagnostic),
in order. -/
def outputs (l : List Event) : List String := l.filterMap outputStr

/-- The grid-mode init block does not throw: either grid mode is off, or
`boinc_init` succeeds and (in managed mode) the assigned ids are available
and non-null. -/
def gridReady (env : Env) (args : List String) : Bool :=
  !isBoincRun env args ||
    (env.boincInitRet == 0 &&
      (env.isStandalone ||
        (env.openclErr == 0 && env.openclDeviceId != 0 && env.openclPlatformId != 0)))

/-- Managed grid mode: grid mode requested and a managing client present
(`!boinc_is_standalone()`), so device identity is externally assigned. -/
def managedMode (env : Env) (args : List String) : Bool :=
  isBoincRun env args && !env.isStandalone

/-- A standard interactive environment: no BOINC build, one device,
healthy engine. -/
def envStd : Env :=
  { boincCompiled := false, boincInitRet := 0, isStandalone := true, openclErr := 0,
    openclDeviceId := 1, openclPlatformId := 1, deviceCount := 1, engineError := none }

/-- `envStd` with an empty device catalog. -/
def envNoDev : Env := { envStd with deviceCount := 0 }

/-- A BOINC build running standalone (no managing client), one device. -/
def envBoincStd : Env := { envStd with boincCompiled := true }

/-- A BOINC build whose `boinc_init` fails with status 1. -/
def envBoincFail : Env := { envStd with boincCompiled := true, boincInitRet := 1 }

example : (mainRun envStd ["-n", "10", "-p"]).2 = 0 := by decide
example : hasEngine (mainRun envStd ["-n", "10", "-p"]).1 = true := by decide
example : (mainRun envStd ["-n", "20"]).2 = 1 := by decide
example : (mainRun envBoincStd ["-boinc"]).2 = 0 := by decide
example : countFinish (mainRun envBoincStd ["-boinc"]).1 = 0 := by decide
example : countFinish (mainRun envBoincStd ["-boinc", "-n", "10"]).1 = 1 := by decide
example : countFinish (mainRun envBoincStd ["-boinc", "-n", "20"]).1 = 1 := by decide
example : (mainRun envNoDev []).2 = 1 := by decide
example : (mainRun envBoincFail ["-v", "-boinc"]).2 = 1 := by decide

/-- Modelled from the spec: the body of `genefer::quit` is outside src/
(genefer.h); per the spec (section 6, "`quit()` (sets the cooperative
cancellation flag)") it sets the process-wide cancellation flag to true. -/
def geneferQuit (_flag : Bool) : Bool := true

/-- The actions a signal handler may take; `application::quit` performs
only the call into the singleton controller. -/
inductive HandlerAction where
  | quitCall : HandlerAction
deriving DecidableEq, Repr

/-- The handler `application::quit(int)` (main.cpp lines 29-32), also reached from the
Windows `HandlerRoutine`: given the current cancellation flag it yields the
new flag state together with the list of actions performed — a single
`genefer::getInstance().quit()` call and nothing else. -/
def signalHandler (flag : Bool) : Bool × List HandlerAction :=
  (geneferQuit flag, [HandlerAction.quitCall])

/-- The cancellation flag after `n` successive deliveries of the stop
signal (SIGINT/SIGTERM or console control event). -/
def deliverN : Nat → Bool → Bool
  | 0, flag => flag
  | k + 1, flag => deliverN k (signalHandler flag).1

/-- C1: a `-n` value outside [8, 16] makes the parse loop throw the matching
`InvalidArgument` message, and every value inside [8, 16] is accepted as the
exponent; concretely so for the concatenated `-n<int>` forms. -/
theorem exponent_range_validation (dc : Nat) (s : String) :
    (atoi s < 8 → parseLoop dc ["-n", s] cfg0 = Except.error "n < 8 is not supported") ∧
    (atoi s > 16 → parseLoop dc ["-n", s] cfg0 = Except.error "n > 16 is not supported") ∧
    (8 ≤ atoi s → atoi s ≤ 16 →
      parseLoop dc ["-n", s] cfg0 = Except.ok { cfg0 with n := atoi s }) ∧
    parseLoop dc ["-n7"] cfg0 = Except.error "n < 8 is not supported" ∧
    parseLoop dc ["-n8"] cfg0 = Except.ok { cfg0 with n := 8 } ∧
    parseLoop dc ["-n16"] cfg0 = Except.ok { cfg0 with n := 16 } ∧
    parseLoop dc ["-n17"] cfg0 = Except.error "n > 16 is not supported" := by
  have key : parseLoop dc ["-n", s] cfg0
      = (match nCheck s with
         | Except.error e => Except.error e
         | Except.ok n => Except.ok { cfg0 with n := n }) := rfl
  refine ⟨?_, ?_, ?_, rfl, rfl, rfl, rfl⟩
  · intro h
    rw [key, show nCheck s = Except.error "n < 8 is not supported" by
      unfold nCheck; rw [if_pos h]]
  · intro h
    rw [key, show nCheck s = Except.error "n > 16 is not supported" by
      unfold nCheck; rw [if_neg (by omega), if_pos h]]
  · intro h1 h2
    rw [key, show nCheck s = Except.ok (atoi s) by
      unfold nCheck; rw [if_neg (by omega), if_neg (by omega)]]

/-- Witness for C1 at concrete inputs 7, 20 and 12. -/
theorem exponent_range_validation_witness :
    (atoi "7" < 8 ∧ parseLoop 3 ["-n", "7"] cfg0 = Except.error "n < 8 is not supported") ∧
    (atoi "20" > 16 ∧ parseLoop 3 ["-n", "20"] cfg0 = Except.error "n > 16 is not supported") ∧
    (8 ≤ atoi "12" ∧ atoi "12" ≤ 16 ∧
      parseLoop 3 ["-n", "12"] cfg0 = Except.ok { cfg0 with n := atoi "12" }) :=
  ⟨⟨by decide, (exponent_range_validation 3 "7").1 (by decide)⟩,
   ⟨by decide, (exponent_range_validation 3 "20").2.1 (by decide)⟩,
   by decide, by decide,
   (exponent_range_validation 3 "12").2.2.1 (by decide) (by decide)⟩

/-- C6: a `-d`/`--device` value whose converted index is at least the
catalog's device count makes the parse loop throw `invalid device number`;
every index strictly below the count is accepted as the device selection. -/
theorem device_index_validation (dc : Nat) (s : String) :
    (toSizeT (atoi s) ≥ dc →
      parseLoop dc ["-d", s] cfg0 = Except.error "invalid device number") ∧
    (toSizeT (atoi s) < dc →
      parseLoop dc ["-d", s] cfg0 = Except.ok { cfg0 with d := toSizeT (atoi s) }) ∧
    (toSizeT (atoi s) ≥ dc →
      parseLoop dc ["--device", s] cfg0 = Except.error "invalid device number") ∧
    (toSizeT (atoi s) < dc →
      parseLoop dc ["--device", s] cfg0 = Except.ok { cfg0 with d := toSizeT (atoi s) }) ∧
    parseLoop 2 ["-d1"] cfg0 = Except.ok { cfg0 with d := 1 } ∧
    parseLoop 1 ["-d1"] cfg0 = Except.error "invalid device number" ∧
    parseLoop 2 ["--device1"] cfg0 = Except.ok { cfg0 with d := 1 } ∧
    parseLoop 1 ["--device1"] cfg0 = Except.error "invalid device number" := by
  have keyd : parseLoop dc ["-d", s] cfg0
      = (match dCheck dc s with
         | Except.error e => Except.error e
         | Except.ok d => Except.ok { cfg0 with d := d }) := rfl
  have keydd : parseLoop dc ["--device", s] cfg0
      = (match dCheck dc s with
         | Except.error e => Except.error e
         | Except.ok d => Except.ok { cfg0 with d := d }) := rfl
  refine ⟨?_, ?_, ?_, ?_, by decide, by decide, by decide, by decide⟩
  · intro h
    rw [keyd, show dCheck dc s = Except.error "invalid device number" by
      unfold dCheck; rw [if_pos h]]
  · intro h
    rw [keyd, show dCheck dc s = Except.ok (toSizeT (atoi s)) by
      unfold dCheck; rw [if_neg (by omega)]]
  · intro h
    rw [keydd, show dCheck dc s = Except.error "invalid device number" by
      unfold dCheck; rw [if_pos h]]
  · intro h
    rw [keydd, show dCheck dc s = Except.ok (toSizeT (atoi s)) by
      unfold dCheck; rw [if_neg (by omega)]]

/-- Witness for C6 on a 2-device catalog with indices 1 (ok) and 3 (bad). -/
theorem device_index_validation_witness :
    (toSizeT (atoi "3") ≥ 2 ∧
      parseLoop 2 ["-d", "3"] cfg0 = Except.error "invalid device number") ∧
    (toSizeT (atoi "1") < 2 ∧
      parseLoop 2 ["--device", "1"] cfg0 = Except.ok { cfg0 with d := toSizeT (atoi "1") }) :=
  ⟨⟨by decide, (device_index_validation 2 "3").1 (by decide)⟩,
   ⟨by decide, (device_index_validation 2 "1").2.2.2.1 (by decide)⟩⟩

/-- C9: a `-n` without a following value, or with a non-numeric value,
is converted by `atoi` to 0 and rejected with the out-of-range message
`n < 8 is not supported`; a value with trailing garbage such as `12abc`
parses as its numeric prefix and is accepted. -/
theorem atoi_fallback_exponent (dc : Nat) (s : String) :
    parseLoop dc ["-n"] cfg0 = Except.error "n < 8 is not supported" ∧
    (atoi s = 0 → parseLoop dc ["-n", s] cfg0 = Except.error "n < 8 is not supported") ∧
    parseLoop dc ["-n", "12abc"] cfg0 = Except.ok { cfg0 with n := 12 } := by
  have key : parseLoop dc ["-n", s] cfg0
      = (match nCheck s with
         | Except.error e => Except.error e
         | Except.ok n => Except.ok { cfg0 with n := n }) := rfl
  refine ⟨rfl, ?_, rfl⟩
  intro h
  rw [key, show nCheck s = Except.error "n < 8 is not supported" by
    unfold nCheck; rw [if_pos (by omega)]]

/-- Witness for C9 with the non-numeric value `abc`. -/
theorem atoi_fallback_exponent_witness :
    atoi "abc" = 0 ∧
    parseLoop 5 ["-n", "abc"] cfg0 = Except.error "n < 8 is not supported" :=
  ⟨by decide, (atoi_fallback_exponent 5 "abc").2.1 (by decide)⟩

/-- C8: delivering the stop signal N ≥ 1 times leaves the cooperative
cancellation flag set; a second delivery changes nothing (idempotence); a
delivery performs exactly one action, the singleton controller's `quit()`
call; and the flag never toggles back from set to unset. -/
theorem cancellation_idempotence (flag : Bool) (n : Nat) (hn : 1 ≤ n) :
    deliverN n flag = true ∧
    (signalHandler (signalHandler flag).1).1 = (signalHandler flag).1 ∧
    (signalHandler flag).2 = [HandlerAction.quitCall] ∧
    (flag = true → (signalHandler flag).1 = true) := by
  obtain ⟨k, rfl⟩ : ∃ k, n = k + 1 := ⟨n - 1, by omega⟩
  have aux : ∀ m, deliverN m true = true := by
    intro m
    induction m with
    | zero => rfl
    | succ m ih => exact ih
  exact ⟨aux k, rfl, rfl, fun _ => rfl⟩

lemma countFinish_cons (e : Event) (l : List Event) :
    countFinish (e :: l) = (if isFinish e then 1 else 0) + countFinish l := by
  simp only [countFinish, List.filter_cons]
  split <;> simp [Nat.add_comm]

lemma countFinish_append (a b : List Event) :
    countFinish (a ++ b) = countFinish a + countFinish b := by
  simp [countFinish, List.filter_append]

lemma hasEngine_cons (e : Event) (l : List Event) :
    hasEngine (e :: l) = (isEngineEvent e || hasEngine l) := by
  simp [hasEngine]

lemma hasEngine_append (a b : List Event) :
    hasEngine (a ++ b) = (hasEngine a || hasEngine b) := by
  simp [hasEngine]

lemma outputs_cons (e : Event) (l : List Event) :
    outputs (e :: l) = (outputStr e).toList ++ outputs l := by
  cases e <;> simp [outputs, outputStr, List.filterMap_cons]

lemma outputs_append (a b : List Event) :
    outputs (a ++ b) = outputs a ++ outputs b := by
  simp [outputs, List.filterMap_append]

lemma countDisplay_cons (e : Event) (l : List Event) :
    countDisplay (e :: l) = (if e = Event.displayDevices then 1 else 0) + countDisplay l := by
  simp only [countDisplay, List.filter_cons, beq_iff_eq]
  split <;> simp [Nat.add_comm]

lemma countDisplay_append (a b : List Event) :
    countDisplay (a ++ b) = countDisplay a + countDisplay b := by
  simp [countDisplay, List.filter_append]

lemma gridInit_events (env : Env) (b : Bool) :
    (gridInit env b).1 = [] ∨ (gridInit env b).1 = [Event.boincInit] ∨
    (gridInit env b).1 = [Event.boincInit, Event.getOpenclIds] := by
  unfold gridInit
  split
  · split
    · exact Or.inr (Or.inl rfl)
    · split
      · split
        · exact Or.inr (Or.inr rfl)
        · exact Or.inr (Or.inr rfl)
      · exact Or.inr (Or.inl rfl)
  · exact Or.inl rfl

lemma gridInit_countFinish (env : Env) (b : Bool) : countFinish (gridInit env b).1 = 0 := by
  rcases gridInit_events env b with h | h | h <;> rw [h] <;> rfl

lemma gridInit_hasEngine (env : Env) (b : Bool) : hasEngine (gridInit env b).1 = false := by
  rcases gridInit_events env b with h | h | h <;> rw [h] <;> rfl

lemma gridInit_outputs (env : Env) (b : Bool) : outputs (gridInit env b).1 = [] := by
  rcases gridInit_events env b with h | h | h <;> rw [h] <;> rfl

lemma gridInit_countDisplay (env : Env) (b : Bool) : countDisplay (gridInit env b).1 = 0 := by
  rcases gridInit_events env b with h | h | h <;> rw [h] <;> rfl

/-- The wrapper `main` either propagates a successful `run` with exit 0, or catches the
thrown message, appends the fatal report (and, in grid mode, the modelled
completion call) and exits 1. -/
lemma mainRun_cases (env : Env) (args : List String) :
    (∃ ev, run env args = (ev, Except.ok ()) ∧ mainRun env args = (ev, 0)) ∨
    (∃ ev e, run env args = (ev, Except.error e) ∧
      mainRun env args = (ev ++ Event.printErrFatal ("\nerror: " ++ e ++ ".\n") ::
        (if isBoincRun env args then [Event.boincFinish 1] else []), 1)) := by
  unfold mainRun
  rcases hr : run env args with ⟨ev, r⟩
  cases r with
  | ok u =>
    cases u
    exact Or.inl ⟨ev, rfl, rfl⟩
  | error e =>
    exact Or.inr ⟨ev, e, rfl, rfl⟩

lemma countFinish_nil : countFinish [] = 0 := rfl

lemma hasEngine_nil : hasEngine [] = false := rfl

lemma outputs_nil : outputs [] = [] := rfl

lemma countDisplay_nil : countDisplay [] = 0 := rfl

lemma isFinish_setBoincPio (b : Bool) : isFinish (Event.setBoincPio b) = false := rfl

lemma isFinish_print (s : String) : isFinish (Event.print s) = false := rfl

lemma isFinish_printErr (s : String) : isFinish (Event.printErr s) = false := rfl

lemma isFinish_displayDevices : isFinish Event.displayDevices = false := rfl

lemma isFinish_genSetBoinc (b : Bool) : isFinish (Event.genSetBoinc b) = false := rfl

lemma isFinish_genInit (n : Int) (b : Bool) : isFinish (Event.genInit n b) = false := rfl

lemma isFinish_release : isFinish Event.release = false := rfl

lemma isFinish_boincFinish (k : Nat) : isFinish (Event.boincFinish k) = true := rfl

lemma isEngineEvent_setBoincPio (b : Bool) : isEngineEvent (Event.setBoincPio b) = false := rfl

lemma isEngineEvent_print (s : String) : isEngineEvent (Event.print s) = false := rfl

lemma isEngineEvent_displayDevices : isEngineEvent Event.displayDevices = false := rfl

lemma isEngineEvent_genSetBoinc (b : Bool) : isEngineEvent (Event.genSetBoinc b) = false := rfl

lemma isEngineEvent_genInit (n : Int) (b : Bool) :
    isEngineEvent (Event.genInit n b) = false := rfl

lemma isEngineEvent_release : isEngineEvent Event.release = false := rfl

lemma isEngineEvent_boincFinish (k : Nat) : isEngineEvent (Event.boincFinish k) = false := rfl

lemma isFinish_engineCtor (p : PlatformSel) (d : Nat) :
    isFinish (Event.engineCtor p d) = false := rfl

lemma isFinish_bench : isFinish Event.bench = false := rfl

lemma isFinish_checkFile (s : String) (b : Bool) :
    isFinish (Event.checkFile s b) = false := rfl

lemma isEngineEvent_engineCtor (p : PlatformSel) (d : Nat) :
    isEngineEvent (Event.engineCtor p d) = true := rfl

lemma isEngineEvent_bench : isEngineEvent Event.bench = false := rfl

lemma isEngineEvent_checkFile (s : String) (b : Bool) :
    isEngineEvent (Event.checkFile s b) = false := rfl

lemma isFinish_engineCtor_ite (c : Prop) [Decidable c] (p1 : PlatformSel) (d1 : Nat)
    (p2 : PlatformSel) (d2 : Nat) :
    isFinish (if c then Event.engineCtor p1 d1 else Event.engineCtor p2 d2) = false := by
  split <;> rfl

lemma isEngineEvent_engineCtor_ite (c : Prop) [Decidable c] (p1 : PlatformSel) (d1 : Nat)
    (p2 : PlatformSel) (d2 : Nat) :
    isEngineEvent (if c then Event.engineCtor p1 d1 else Event.engineCtor p2 d2) = true := by
  split <;> rfl

lemma isFinish_dispatch_ite (c : Prop) [Decidable c] (s : String) (b : Bool) :
    isFinish (if c then Event.bench else Event.checkFile s b) = false := by
  split <;> rfl

lemma isEngineEvent_dispatch_ite (c : Prop) [Decidable c] (s : String) (b : Bool) :
    isEngineEvent (if c then Event.bench else Event.checkFile s b) = false := by
  split <;> rfl

/-- Shape of a full `run`: it either throws having made no completion call,
returns through the banner path (one completion call exactly in grid mode,
no engine), or returns normally with or without having built the engine
(one completion call exactly in grid mode when the engine path completed,
none on the no-op returns). -/
lemma run_shape (env : Env) (args : List String) :
    ∃ ev r, run env args = (ev, r) ∧
      (((∃ e, r = Except.error e) ∧ countFinish ev = 0) ∨
       (r = Except.ok () ∧ bannerHit args = true ∧
         countFinish ev = (if isBoincRun env args then 1 else 0) ∧ hasEngine ev = false) ∨
       (r = Except.ok () ∧ bannerHit args = false ∧ hasEngine ev = true ∧
         countFinish ev = (if isBoincRun env args then 1 else 0)) ∨
       (r = Except.ok () ∧ bannerHit args = false ∧ hasEngine ev = false ∧
         countFinish ev = 0)) := by
  have hgF := gridInit_countFinish env (isBoincRun env args)
  have hgE := gridInit_hasEngine env (isBoincRun env args)
  simp only [run]
  split
  · next e heq =>
    exact ⟨_, _, rfl, Or.inl ⟨⟨e, rfl⟩,
      by rw [countFinish_cons]; simp [isFinish, hgF]⟩⟩
  · next ids heq =>
    split
    · next hban =>
      refine ⟨_, _, rfl, Or.inr (Or.inl ⟨rfl, hban, ?_, ?_⟩)⟩
      · cases hbb : isBoincRun env args <;> rw [hbb] at hgF <;>
          simp [countFinish_append, countFinish_cons, countFinish_nil, isFinish, hgF]
      · cases hbb : isBoincRun env args <;> rw [hbb] at hgE <;>
          simp [hasEngine_append, hasEngine_cons, hasEngine_nil, isEngineEvent, hgE]
    · next hban =>
      have hban' : bannerHit args = false := by simpa using hban
      split
      · next hdc =>
        refine ⟨_, _, rfl, Or.inl ⟨⟨_, rfl⟩, ?_⟩⟩
        split <;>
          simp [countFinish_append, countFinish_cons, countFinish_nil, isFinish, hgF]
      · next hdc =>
        split
        · next hemp =>
          refine ⟨_, _, rfl, Or.inr (Or.inr (Or.inr ⟨rfl, hban', ?_, ?_⟩))⟩
          · simp [hasEngine_append, hasEngine_cons, hasEngine_nil, isEngineEvent, hgE]
          · simp [countFinish_append, countFinish_cons, countFinish_nil, isFinish, hgF]
        · next hemp =>
          split
          · next e hp =>
            refine ⟨_, _, rfl, Or.inl ⟨⟨e, rfl⟩, ?_⟩⟩
            simp [countFinish_append, countFinish_cons, countFinish_nil, isFinish, hgF]
          · next cfg hp =>
            split
            · next hn =>
              refine ⟨_, _, rfl, Or.inr (Or.inr (Or.inr ⟨rfl, hban', ?_, ?_⟩))⟩
              · simp [hasEngine_append, hasEngine_cons, hasEngine_nil, isEngineEvent, hgE]
              · simp [countFinish_append, countFinish_cons, countFinish_nil, isFinish, hgF]
            · next hn =>
              split
              · next e heng =>
                refine ⟨_, _, rfl, Or.inl ⟨⟨e, rfl⟩, ?_⟩⟩
                simp [countFinish_append, countFinish_cons, countFinish_nil, hgF,
                  isFinish_setBoincPio, isFinish_print, isFinish_displayDevices,
                  isFinish_genSetBoinc, isFinish_genInit,
                  isFinish_engineCtor_ite, isFinish_dispatch_ite]
              · next heng =>
                refine ⟨_, _, rfl, Or.inr (Or.inr (Or.inl ⟨rfl, hban', ?_, ?_⟩))⟩
                · simp [hasEngine_append, hasEngine_cons, hasEngine_nil, hgE,
                    isEngineEvent_setBoincPio, isEngineEvent_print,
                    isEngineEvent_displayDevices, isEngineEvent_genSetBoinc,
                    isEngineEvent_genInit, isEngineEvent_release,
                    isEngineEvent_boincFinish,
                    isEngineEvent_engineCtor_ite, isEngineEvent_dispatch_ite]
                · cases hbb : isBoincRun env args <;> rw [hbb] at hgF <;>
                    simp [countFinish_append, countFinish_cons, countFinish_nil, hgF,
                      isFinish_setBoincPio, isFinish_print, isFinish_displayDevices,
                      isFinish_genSetBoinc, isFinish_genInit, isFinish_release,
                      isFinish_boincFinish, isFinish_engineCtor, isFinish_bench,
                      isFinish_checkFile,
                      isFinish_engineCtor_ite, isFinish_dispatch_ite]

/-- C2 (counterexample): with grid mode successfully entered
(`boinc_init` succeeded, standalone client), the no-exponent no-op return
path (`if (n == 0) return;`) exits successfully without any completion
call, so the completion call is not invoked exactly once on every exit
path. -/
theorem grid_noop_no_completion_call :
    isBoincRun envBoincStd ["-boinc"] = true ∧
    (gridInit envBoincStd true).2 = Except.ok (0, 0) ∧
    (mainRun envBoincStd ["-boinc"]).2 = 0 ∧
    countFinish (mainRun envBoincStd ["-boinc"]).1 = 0 := by
  refine ⟨by decide, by decide, by decide, by decide⟩

/-- C2 (amended): once grid mode is entered, the completion call happens
exactly once on every fatal-error exit, on the banner exit, and on normal
computation success; but the no-exponent no-op return (success exit with no
banner and no engine construction) makes no completion call at all. -/
theorem grid_completion_paths (env : Env) (args : List String)
    (hB : isBoincRun env args = true) :
    ((mainRun env args).2 ≠ 0 → countFinish (mainRun env args).1 = 1) ∧
    (bannerHit args = true → countFinish (mainRun env args).1 = 1) ∧
    ((mainRun env args).2 = 0 → hasEngine (mainRun env args).1 = true →
      countFinish (mainRun env args).1 = 1) ∧
    ((mainRun env args).2 = 0 → bannerHit args = false →
      hasEngine (mainRun env args).1 = false → countFinish (mainRun env args).1 = 0) := by
  obtain ⟨ev, r, hr, hshape⟩ := run_shape env args
  rcases mainRun_cases env args with ⟨ev2, hr2, hm⟩ | ⟨ev2, e2, hr2, hm⟩
  · have hee := hr.symm.trans hr2
    injection hee with h1 h2
    subst h1
    rcases hshape with ⟨⟨e, he⟩, _⟩ | ⟨_, hban, hc, hne⟩ | ⟨_, hban, hne, hc⟩ |
      ⟨_, hban, hne, hc⟩
    · exact absurd (h2.symm.trans he) (by simp)
    · rw [hB] at hc
      refine ⟨fun h0 => ?_, fun _ => ?_, fun _ hne2 => ?_, fun _ hb2 _ => ?_⟩
      · rw [hm] at h0; simp at h0
      · rw [hm]; simpa using hc
      · rw [hm]; simpa using hc
      · rw [hb2] at hban; cases hban
    · rw [hB] at hc
      refine ⟨fun h0 => ?_, fun hb2 => ?_, fun _ _ => ?_, fun _ _ hne2 => ?_⟩
      · rw [hm] at h0; simp at h0
      · rw [hb2] at hban; cases hban
      · rw [hm]; simpa using hc
      · rw [hm] at hne2; rw [hne2] at hne; cases hne
    · refine ⟨fun h0 => ?_, fun hb2 => ?_, fun _ hne2 => ?_, fun _ _ _ => ?_⟩
      · rw [hm] at h0; simp at h0
      · rw [hb2] at hban; cases hban
      · rw [hm] at hne2; rw [hne2] at hne; cases hne
      · rw [hm]; simpa using hc
  · have hee := hr.symm.trans hr2
    injection hee with h1 h2
    subst h1
    rcases hshape with ⟨⟨e, he⟩, hc0⟩ | ⟨hok, _⟩ | ⟨hok, _⟩ | ⟨hok, _⟩
    · refine ⟨fun _ => ?_, fun _ => ?_, fun h0 => ?_, fun h0 => ?_⟩
      · rw [hm, hB]
        simp [countFinish_append, countFinish_cons, countFinish_nil, hc0,
          isFinish_boincFinish, isFinish]
      · rw [hm, hB]
        simp [countFinish_append, countFinish_cons, countFinish_nil, hc0,
          isFinish_boincFinish, isFinish]
      · rw [hm] at h0; simp at h0
      · rw [hm] at h0; simp at h0
    · exact absurd (h2.symm.trans hok) (by simp)
    · exact absurd (h2.symm.trans hok) (by simp)
    · exact absurd (h2.symm.trans hok) (by simp)

/-- Witness for C2's amended theorem: a grid-mode benchmark run that
completes normally makes exactly one completion call. -/
theorem grid_completion_paths_witness :
    isBoincRun envBoincStd ["-boinc", "-n", "10"] = true ∧
    countFinish (mainRun envBoincStd ["-boinc", "-n", "10"]).1 = 1 :=
  ⟨by decide,
    (grid_completion_paths envBoincStd ["-boinc", "-n", "10"] (by decide)).2.2.1
      (by decide) (by decide)⟩

lemma gridInit_ok_of_ready (env : Env) (args : List String) (h : gridReady env args = true) :
    ∃ ids, (gridInit env (isBoincRun env args)).2 = Except.ok ids := by
  unfold gridReady at h
  unfold gridInit
  cases hbb : isBoincRun env args with
  | false => exact ⟨(0, 0), by simp⟩
  | true =>
    rw [hbb] at h
    simp at h
    obtain ⟨h0, hrest⟩ := h
    rw [if_pos rfl, if_neg (by simp [h0])]
    by_cases hs : env.isStandalone = true
    · rw [if_neg (by simp [hs])]
      exact ⟨(0, 0), rfl⟩
    · have hs' : env.isStandalone = false := by simpa using hs
      rw [if_pos (by simp [hs'])]
      rcases hrest with hstand | ⟨⟨he, hdev⟩, hplat⟩
      · simp [hstand] at hs'
      · rw [if_neg (by simp [he, hdev, hplat])]
        exact ⟨(env.openclPlatformId, env.openclDeviceId), rfl⟩

/-- On the `-v`/`-V` path with a healthy grid init, `run` prints the banner
to the diagnostic channel, makes the completion call exactly in grid mode,
and returns successfully. -/
lemma run_banner (env : Env) (args : List String) (ids : Nat × Nat)
    (hok : (gridInit env (isBoincRun env args)).2 = Except.ok ids)
    (hban : bannerHit args = true) :
    run env args = (Event.setBoincPio (isBoincRun env args) ::
      (gridInit env (isBoincRun env args)).1 ++ Event.printErr (header args false) ::
      (if isBoincRun env args then [Event.boincFinish 0] else []), Except.ok ()) := by
  simp only [run, hok, hban]
  simp

/-- C3 (counterexample): with grid mode requested and a failing grid client
(`boinc_init` returns 1), an argument list containing `-v` exits with
failure status and the only output is the error report, not the banner. -/
theorem banner_preempted_by_grid_failure :
    bannerHit ["-v", "-boinc"] = true ∧
    (mainRun envBoincFail ["-v", "-boinc"]).2 = 1 ∧
    outputs (mainRun envBoincFail ["-v", "-boinc"]).1 =
      ["\nerror: boinc_init returned 1.\n"] := by
  refine ⟨by decide, by decide, by decide⟩

/-- C3 (amended): for every argument list containing a `-v`/`-V` token,
provided grid-client initialization does not fail (vacuously so outside
grid mode), the process exits successfully having emitted exactly the
identification banner, never enumerating devices and never constructing
the engine; a grid-init failure instead preempts the banner. -/
theorem banner_short_circuit (env : Env) (args : List String)
    (hban : bannerHit args = true) (hready : gridReady env args = true) :
    (mainRun env args).2 = 0 ∧
    outputs (mainRun env args).1 = [header args false] ∧
    hasEngine (mainRun env args).1 = false ∧
    countDisplay (mainRun env args).1 = 0 := by
  obtain ⟨ids, hok⟩ := gridInit_ok_of_ready env args hready
  have hgO := gridInit_outputs env (isBoincRun env args)
  have hgE := gridInit_hasEngine env (isBoincRun env args)
  have hgD := gridInit_countDisplay env (isBoincRun env args)
  have hrun := run_banner env args ids hok hban
  rcases mainRun_cases env args with ⟨ev2, hr2, hm⟩ | ⟨ev2, e2, hr2, hm⟩
  · have hee := hrun.symm.trans hr2
    injection hee with h1 h2
    rw [hm, ← h1]
    refine ⟨rfl, ?_, ?_, ?_⟩
    · cases hbb : isBoincRun env args <;> rw [hbb] at hgO <;>
        simp [outputs_cons, outputs_append, outputs_nil, outputStr, hgO]
    · cases hbb : isBoincRun env args <;> rw [hbb] at hgE <;>
        simp [hasEngine_cons, hasEngine_append, hasEngine_nil, isEngineEvent, hgE]
    · cases hbb : isBoincRun env args <;> rw [hbb] at hgD <;>
        simp [countDisplay_cons, countDisplay_append, countDisplay_nil, hgD]
  · have hee := hrun.symm.trans hr2
    injection hee with h1 h2
    exact absurd h2 (by simp)

/-- Witness for C3's amended theorem: `-v` alone in a standalone
environment. -/
theorem banner_short_circuit_witness :
    bannerHit ["-v"] = true ∧ gridReady envStd ["-v"] = true ∧
    ((mainRun envStd ["-v"]).2 = 0 ∧
      outputs (mainRun envStd ["-v"]).1 = [header ["-v"] false] ∧
      hasEngine (mainRun envStd ["-v"]).1 = false ∧
      countDisplay (mainRun envStd ["-v"]).1 = 0) :=
  ⟨by decide, by decide, banner_short_circuit envStd ["-v"] (by decide) (by decide)⟩

lemma takeVal_mem (c : Bool) (x : String) (rest : List String) (v : String)
    (rem : List String) (h : takeVal c x rest = (v, rem)) : ∀ a ∈ rem, a ∈ rest := by
  unfold takeVal at h
  split at h
  · cases rest with
    | nil =>
      injection h with h1 h2
      subst h2
      exact fun a ha => ha
    | cons w rest' =>
      injection h with h1 h2
      subst h2
      exact fun a ha => List.mem_cons_of_mem w ha
  · injection h with h1 h2
    subst h2
    exact fun a ha => ha

/-- If no argument token starts with `-n`, the parse loop leaves the
exponent local `n` unchanged. -/
lemma parseGo_keeps_n (dc : Nat) (fuel : Nat) :
    ∀ (l : List String) (cfg cfg' : Cfg), (∀ a ∈ l, ¬ substrPref a 2 = "-n") →
      parseGo dc fuel l cfg = Except.ok cfg' → cfg'.n = cfg.n := by
  induction fuel with
  | zero =>
    intro l cfg cfg' _ hok
    simp only [parseGo] at hok
    cases hok
    rfl
  | succ fuel ih =>
    intro l cfg cfg' hmem hok
    cases l with
    | nil =>
      simp only [parseGo] at hok
      cases hok
      rfl
    | cons arg rest =>
      have hn : ¬ substrPref arg 2 = "-n" := hmem arg (List.mem_cons_self arg rest)
      have hrest : ∀ a ∈ rest, ¬ substrPref a 2 = "-n" :=
        fun a ha => hmem a (List.mem_cons_of_mem arg ha)
      simp only [parseGo] at hok
      rw [if_neg hn] at hok
      by_cases hf : substrPref arg 2 = "-f"
      · rw [if_pos hf] at hok
        rcases htv : takeVal (arg == "-f") (substrFrom arg 2) rest with ⟨v, rem⟩
        rw [htv] at hok
        exact ih rem { cfg with filename := v } cfg'
          (fun a ha => hrest a (takeVal_mem _ _ _ _ _ htv a ha)) hok
      · rw [if_neg hf] at hok
        by_cases hd : substrPref arg 2 = "-d"
        · rw [if_pos hd] at hok
          rcases htv : takeVal (arg == "-d") (substrFrom arg 2) rest with ⟨v, rem⟩
          rw [htv] at hok
          cases hdd : dCheck dc v with
          | error e => rw [hdd] at hok; exact absurd hok (by simp)
          | ok d =>
            rw [hdd] at hok
            exact ih rem { cfg with d := d } cfg'
              (fun a ha => hrest a (takeVal_mem _ _ _ _ _ htv a ha)) hok
        · rw [if_neg hd] at hok
          by_cases hdd : substrPref arg 8 = "--device"
          · rw [if_pos hdd] at hok
            rcases htv : takeVal (arg == "--device") (substrFrom arg 8) rest with ⟨v, rem⟩
            rw [htv] at hok
            cases hdc2 : dCheck dc v with
            | error e => rw [hdc2] at hok; exact absurd hok (by simp)
            | ok d =>
              rw [hdc2] at hok
              exact ih rem { cfg with d := d } cfg'
                (fun a ha => hrest a (takeVal_mem _ _ _ _ _ htv a ha)) hok
          · rw [if_neg hdd] at hok
            by_cases hp : (arg == "-p") = true
            · rw [if_pos hp] at hok
              exact ih rest { cfg with display := true } cfg' hrest hok
            · rw [if_neg hp] at hok
              exact ih rest cfg cfg' hrest hok

/-- Control-flow outcome (`.2`) of `run` as an explicit decision tree. -/
lemma run_snd (env : Env) (args : List String) :
    (run env args).2 = (match (gridInit env (isBoincRun env args)).2 with
      | Except.error e => Except.error e
      | Except.ok _ =>
        if bannerHit args = true then Except.ok ()
        else if env.deviceCount = 0 then Except.error "No OpenCL device"
        else if args.isEmpty = true then Except.ok ()
        else match parseLoop env.deviceCount args cfg0 with
          | Except.error e => Except.error e
          | Except.ok cfg =>
            if cfg.n = 0 then Except.ok ()
            else match env.engineError with
              | some e => Except.error e
              | none => Except.ok ()) := by
  simp only [run]
  repeat' (first | rfl | split)

lemma engineCtor_mem_finish_ite (c : Prop) [Decidable c] (p : PlatformSel) (d k : Nat) :
    (Event.engineCtor p d ∈ (if c then [Event.boincFinish k] else [])) ↔ False := by
  split <;> simp

lemma engineCtor_eq_dispatch (c : Prop) [Decidable c] (p : PlatformSel) (d : Nat)
    (s : String) (b : Bool) :
    (Event.engineCtor p d = if c then Event.bench else Event.checkFile s b) ↔ False := by
  split <;> simp

lemma bigBool_iff (b : Bool) (x y : Nat) :
    (b && decide (y ≠ 0) && decide (x ≠ 0)) = true ↔ ((b = true ∧ ¬y = 0) ∧ ¬x = 0) := by
  simp [Bool.and_eq_true, and_assoc]

lemma hasEngine_exists (l : List Event) (h : hasEngine l = true) :
    ∃ p d, Event.engineCtor p d ∈ l := by
  unfold hasEngine at h
  rw [List.any_eq_true] at h
  obtain ⟨e, he, hp⟩ := h
  cases e <;> first
    | exact ⟨_, _, he⟩
    | simp [isEngineEvent] at hp

/-- If the engine was constructed, the parse succeeded with a nonzero
exponent and the grid-init stage succeeded; the engine's platform and
device index are the BOINC-assigned pair with index 0 when the run holds
non-null assigned ids, and the local platform with the parsed index
otherwise. -/
lemma run_engine_inv (env : Env) (args : List String) (p : PlatformSel) (d : Nat)
    (hmem : Event.engineCtor p d ∈ (run env args).1) :
    ∃ cfg ids, parseLoop env.deviceCount args cfg0 = Except.ok cfg ∧ ¬cfg.n = 0 ∧
      (gridInit env (isBoincRun env args)).2 = Except.ok ids ∧
      ((isBoincRun env args && decide (ids.2 ≠ 0) && decide (ids.1 ≠ 0)) = true →
        p = PlatformSel.boincPlat ids.1 ids.2 ∧ d = 0) ∧
      ((isBoincRun env args && decide (ids.2 ≠ 0) && decide (ids.1 ≠ 0)) = false →
        p = PlatformSel.localPlat ∧ d = cfg.d) := by
  have hgev : ∀ (q : PlatformSel) (k : Nat),
      Event.engineCtor q k ∉ (gridInit env (isBoincRun env args)).1 := by
    intro q k hmm2
    have hh : hasEngine (gridInit env (isBoincRun env args)).1 = true := by
      unfold hasEngine
      rw [List.any_eq_true]
      exact ⟨_, hmm2, rfl⟩
    rw [gridInit_hasEngine] at hh
    cases hh
  simp only [run] at hmem
  split at hmem
  · next e heq =>
    simp [hgev] at hmem
  · next ids heq =>
    split at hmem
    · next hban =>
      simp [hgev, engineCtor_mem_finish_ite] at hmem
    · next hban =>
      split at hmem
      · next hdc =>
        split at hmem <;> simp [hgev] at hmem
      · next hdc =>
        split at hmem
        · next hemp =>
          simp [hgev] at hmem
        · next hemp =>
          split at hmem
          · next e hp =>
            simp [hgev] at hmem
          · next cfg hp =>
            split at hmem
            · next hn =>
              simp [hgev] at hmem
            · next hn =>
              split at hmem
              · next e heng =>
                refine ⟨cfg, ids, hp, hn, heq, ?_, ?_⟩
                · intro hbp
                  simp [hgev, engineCtor_eq_dispatch] at hmem
                  rw [if_pos ((bigBool_iff _ _ _).mp hbp)] at hmem
                  injection hmem with h1 h2
                  exact ⟨h1, h2⟩
                · intro hbp
                  simp [hgev, engineCtor_eq_dispatch] at hmem
                  rw [if_neg (fun hcc => absurd
                    ((bigBool_iff (isBoincRun env args) ids.1 ids.2).mpr hcc)
                    (fun hx => by rw [hx] at hbp; exact Bool.noConfusion hbp))] at hmem
                  injection hmem with h1 h2
                  exact ⟨h1, h2⟩
              · next heng =>
                refine ⟨cfg, ids, hp, hn, heq, ?_, ?_⟩
                · intro hbp
                  simp [hgev, engineCtor_eq_dispatch, engineCtor_mem_finish_ite] at hmem
                  rw [if_pos ((bigBool_iff _ _ _).mp hbp)] at hmem
                  injection hmem with h1 h2
                  exact ⟨h1, h2⟩
                · intro hbp
                  simp [hgev, engineCtor_eq_dispatch, engineCtor_mem_finish_ite] at hmem
                  rw [if_neg (fun hcc => absurd
                    ((bigBool_iff (isBoincRun env args) ids.1 ids.2).mpr hcc)
                    (fun hx => by rw [hx] at hbp; exact Bool.noConfusion hbp))] at hmem
                  injection hmem with h1 h2
                  exact ⟨h1, h2⟩

lemma mainRun_engine (env : Env) (args : List String) (p : PlatformSel) (d : Nat)
    (h : Event.engineCtor p d ∈ (mainRun env args).1) :
    Event.engineCtor p d ∈ (run env args).1 := by
  rcases mainRun_cases env args with ⟨ev2, hr2, hm⟩ | ⟨ev2, e2, hr2, hm⟩
  · rw [hm] at h
    rw [hr2]
    exact h
  · rw [hm] at h
    rw [hr2]
    simp [engineCtor_mem_finish_ite] at h
    exact h

/-- Inversion of a successful grid-init stage: either the run is managed
(grid mode and a managing client) and the ids are the client's non-null
assignment, or the stored ids remained the null pair. -/
lemma gridInit_ok_inv (env : Env) (b : Bool) (ids : Nat × Nat)
    (h : (gridInit env b).2 = Except.ok ids) :
    ((b && !env.isStandalone) = true ∧ ids = (env.openclPlatformId, env.openclDeviceId) ∧
      ¬env.openclDeviceId = 0 ∧ ¬env.openclPlatformId = 0) ∨
    ((b && !env.isStandalone) = false ∧ ids = (0, 0)) := by
  unfold gridInit at h
  split at h
  · next hb =>
    split at h
    · simp at h
    · next hstand =>
      split at h
      · next hbad =>
        split at h
        · simp at h
        · next hgood =>
          push_neg at hgood
          obtain ⟨he, hdev, hplat⟩ := hgood
          simp at h
          left
          exact ⟨by simp [hb, hbad], h.symm, hdev, hplat⟩
      · next hstand2 =>
        simp at h
        right
        refine ⟨?_, h.symm⟩
        have : env.isStandalone = true := by
          cases hss : env.isStandalone with
          | true => rfl
          | false => exact absurd (by simp [hss]) hstand2
        simp [this]
  · next hb =>
    simp at h
    right
    refine ⟨?_, h.symm⟩
    have : b = false := by
      cases hbv : b with
      | true => exact absurd (by simp [hbv]) hb
      | false => rfl
    simp [this]

/-- C4 (counterexample): the non-empty argument list `-d 1` contains no
`-n` flag, yet on a one-device catalog the run exits with failure status
(`invalid device number`), not success; the engine is still never
constructed. -/
theorem no_exponent_failure_exit :
    (["-d", "1"] ≠ ([] : List String)) ∧
    (["-d", "1"].all fun a => !(substrPref a 2 == "-n")) = true ∧
    hasEngine (mainRun envStd ["-d", "1"]).1 = false ∧
    (mainRun envStd ["-d", "1"]).2 = 1 := by
  refine ⟨by decide, by decide, by decide, by decide⟩

/-- C4 (amended): for every non-empty argument list without a `-n` flag the
engine is never constructed; the process exits with success provided no
fatal startup error occurs (grid-init failure, empty device catalog, or an
out-of-range device index making the parse fail); such an error exits with
failure, still without constructing the engine. -/
theorem no_exponent_noop (env : Env) (args : List String) (hne : args ≠ [])
    (hnn : ∀ a ∈ args, ¬ substrPref a 2 = "-n") :
    hasEngine (mainRun env args).1 = false ∧
    (gridReady env args = true → ¬env.deviceCount = 0 →
      ∀ cfg, parseLoop env.deviceCount args cfg0 = Except.ok cfg →
        (mainRun env args).2 = 0) := by
  constructor
  · by_cases heng : hasEngine (mainRun env args).1 = true
    · exfalso
      obtain ⟨p, d, hmemM⟩ := hasEngine_exists _ heng
      obtain ⟨cfg, ids, hp, hn0, _, _, _⟩ :=
        run_engine_inv env args p d (mainRun_engine env args p d hmemM)
      have hkeep := parseGo_keeps_n env.deviceCount args.length args cfg0 cfg hnn hp
      exact hn0 (by rw [hkeep]; rfl)
    · simpa using heng
  · intro hready hdc cfg hp
    obtain ⟨ids, hok⟩ := gridInit_ok_of_ready env args hready
    have hn0 : cfg.n = 0 := by
      have hkeep := parseGo_keeps_n env.deviceCount args.length args cfg0 cfg hnn hp
      rw [hkeep]
      rfl
    rcases mainRun_cases env args with ⟨ev2, hr2, hm⟩ | ⟨ev2, e2, hr2, hm⟩
    · rw [hm]
    · exfalso
      have h2 := run_snd env args
      rw [hok, hr2] at h2
      have h3 : Except.error e2 = (if bannerHit args = true then Except.ok ()
          else if env.deviceCount = 0 then Except.error "No OpenCL device"
          else if args.isEmpty = true then Except.ok ()
          else match parseLoop env.deviceCount args cfg0 with
            | Except.error e => Except.error e
            | Except.ok cfg =>
              if cfg.n = 0 then Except.ok ()
              else match env.engineError with
                | some e => Except.error e
                | none => Except.ok ()) := h2
      have hempty : args.isEmpty = false := by
        cases args with
        | nil => exact absurd rfl hne
        | cons a l => rfl
      by_cases hban : bannerHit args = true
      · rw [if_pos hban] at h3
        exact absurd h3 (by simp)
      · rw [if_neg hban, if_neg hdc, if_neg (by simp [hempty]), hp] at h3
        have h4 : Except.error e2 = (if cfg.n = 0 then Except.ok ()
            else match env.engineError with
              | some e => Except.error e
              | none => Except.ok ()) := h3
        rw [if_pos hn0] at h4
        exact absurd h4 (by simp)

/-- Witness for C4's amended theorem: `-p` alone is a successful no-op. -/
theorem no_exponent_noop_witness :
    (["-p"] ≠ ([] : List String)) ∧
    hasEngine (mainRun envStd ["-p"]).1 = false ∧
    (mainRun envStd ["-p"]).2 = 0 := by
  refine ⟨by decide, ?_, ?_⟩
  · exact (no_exponent_noop envStd ["-p"] (by decide) (by decide)).1
  · exact (no_exponent_noop envStd ["-p"] (by decide) (by decide)).2 (by decide) (by decide)
      { cfg0 with display := true } (by decide)

/-- C7: whenever the engine is constructed, in managed grid mode it is
bound to the externally-assigned (platform-id, device-id) pair with local
index 0 — overriding any `-d`/`--device` selection — and otherwise to the
local platform with the parsed device index. -/
theorem managed_device_override (env : Env) (args : List String) (p : PlatformSel) (d : Nat)
    (hmem : Event.engineCtor p d ∈ (mainRun env args).1) :
    (managedMode env args = true →
      p = PlatformSel.boincPlat env.openclPlatformId env.openclDeviceId ∧ d = 0) ∧
    (managedMode env args = false →
      ∃ cfg, parseLoop env.deviceCount args cfg0 = Except.ok cfg ∧
        p = PlatformSel.localPlat ∧ d = cfg.d) := by
  obtain ⟨cfg, ids, hp, hn, heq, hT, hF⟩ :=
    run_engine_inv env args p d (mainRun_engine env args p d hmem)
  rcases gridInit_ok_inv env (isBoincRun env args) ids heq with
    ⟨hman, hids, hdev, hplat⟩ | ⟨hman, hids⟩
  · constructor
    · intro _
      have hb : isBoincRun env args = true := by
        have hman2 := hman
        simp only [Bool.and_eq_true] at hman2
        exact hman2.1
      have hbig : (isBoincRun env args && decide (ids.2 ≠ 0) && decide (ids.1 ≠ 0)) = true := by
        rw [hb, hids]
        simp [hdev, hplat]
      obtain ⟨hp1, hd1⟩ := hT hbig
      rw [hids] at hp1
      exact ⟨hp1, hd1⟩
    · intro hman2
      unfold managedMode at hman2
      rw [hman] at hman2
      cases hman2
  · have hbig : (isBoincRun env args && decide (ids.2 ≠ 0) && decide (ids.1 ≠ 0)) = false := by
      rw [hids]
      simp
    obtain ⟨hp1, hd1⟩ := hF hbig
    constructor
    · intro hman2
      unfold managedMode at hman2
      rw [hman] at hman2
      cases hman2
    · intro _
      exact ⟨cfg, hp, hp1, hd1⟩

/-- Witness for C7: a standalone benchmark run constructs the engine on the
local platform with the default device index 0. -/
theorem managed_device_override_witness :
    Event.engineCtor PlatformSel.localPlat 0 ∈ (mainRun envStd ["-n", "10"]).1 ∧
    (managedMode envStd ["-n", "10"] = false →
      ∃ cfg, parseLoop envStd.deviceCount ["-n", "10"] cfg0 = Except.ok cfg ∧
        PlatformSel.localPlat = PlatformSel.localPlat ∧ 0 = cfg.d) :=
  ⟨by decide,
    (managed_device_override envStd ["-n", "10"] PlatformSel.localPlat 0 (by decide)).2⟩

set_option maxRecDepth 4000 in
/-- C5 (counterexample): with an empty argument list and zero devices, the
run does fail (`No OpenCL device`, exit 1), but the usage text has already
been printed before the failure report — contradicting "before any usage
text is printed". -/
theorem usage_precedes_no_device_error :
    (mainRun envNoDev []).2 = 1 ∧
    ((mainRun envNoDev []).1.takeWhile
        (fun e => !(e == Event.printErrFatal "\nerror: No OpenCL device.\n"))).contains
      (Event.print (usage false)) = true := by
  refine ⟨by decide, by decide⟩

/-- C5 (amended): with an empty argument list and zero devices the run
fails with `No OpenCL device` and exits with failure, but only after the
banner and the usage text have been printed: the usage print strictly
precedes the failure report. -/
theorem empty_args_no_device (env : Env) (h : env.deviceCount = 0) :
    mainRun env [] =
      ([Event.setBoincPio false, Event.print (header [] true),
        Event.print (usage env.boincCompiled), Event.displayDevices,
        Event.printErrFatal "\nerror: No OpenCL device.\n"], 1) := by
  rcases env with ⟨bc, bir, istd, oerr, odid, opid, dcnt, eerr⟩
  obtain rfl : dcnt = 0 := h
  cases bc <;> rfl

/-- Witness for C5's amended theorem at the concrete zero-device
environment. -/
theorem empty_args_no_device_witness :
    envNoDev.deviceCount = 0 ∧
    mainRun envNoDev [] =
      ([Event.setBoincPio false, Event.print (header [] true),
        Event.print (usage envNoDev.boincCompiled), Event.displayDevices,
        Event.printErrFatal "\nerror: No OpenCL device.\n"], 1) :=
  ⟨rfl, empty_args_no_device envNoDev rfl⟩

/-- C10: the `-v` scan is prefix-based: any token whose first character is
`'-'` and second is `'v'`/`'V'` (such as `-verbose` or `-version`) triggers
the banner-and-exit path, while `--device` (second character `'-'`) does
not; such tokens are not silently ignored like other unknown flags. -/
theorem banner_scan_prefix_based (args : List String) (s : String) (hmem : s ∈ args)
    (h0 : charAt s 0 = '-') (h1 : charAt s 1 = 'v' ∨ charAt s 1 = 'V') :
    bannerHit args = true ∧
    mainRun envStd args =
      ([Event.setBoincPio false, Event.printErr (header args false)], 0) ∧
    bannerHit ["-verbose"] = true ∧
    bannerHit ["-version"] = true ∧
    bannerHit ["--device"] = false ∧
    (mainRun envStd ["--device"]).2 = 0 ∧
    hasEngine (mainRun envStd ["--device"]).1 = false := by
  have hB : bannerHit args = true := by
    unfold bannerHit
    rw [List.any_eq_true]
    refine ⟨s, hmem, ?_⟩
    rw [h0]
    rcases h1 with h | h <;> rw [h] <;> rfl
  refine ⟨hB, ?_, by decide, by decide, by decide, by decide, by decide⟩
  have hrun := run_banner envStd args (0, 0) rfl hB
  rcases mainRun_cases envStd args with ⟨ev2, hr2, hm⟩ | ⟨ev2, e2, hr2, hm⟩
  · have hee := hrun.symm.trans hr2
    injection hee with hA hBr
    rw [hm, ← hA]
    rfl
  · have hee := hrun.symm.trans hr2
    injection hee with hA hBr
    exact absurd hBr (by simp)

/-- Witness for C10 with the token `-verbose`. -/
theorem banner_scan_prefix_based_witness :
    ("-verbose" ∈ ["-verbose"]) ∧ charAt "-verbose" 0 = '-' ∧ charAt "-verbose" 1 = 'v' ∧
    mainRun envStd ["-verbose"] =
      ([Event.setBoincPio false, Event.printErr (header ["-verbose"] false)], 0) :=
  ⟨by decide, by decide, by decide,
    (banner_scan_prefix_based ["-verbose"] "-verbose" (by decide) (by decide)
      (Or.inl (by decide))).2.1⟩

/-- Witness for C8: two deliveries starting from an unset flag. -/
theorem cancellation_idempotence_witness :
    1 ≤ 2 ∧
    (deliverN 2 false = true ∧
      (signalHandler (signalHandler false).1).1 = (signalHandler false).1 ∧
      (signalHandler false).2 = [HandlerAction.quitCall] ∧
      (false = true → (signalHandler false).1 = true)) :=
  ⟨by decide, cancellation_idempotence false 2 (by decide)⟩

end Genefer20
